import Mathlib

/-!
# vxectl (madr): device discovery, command dispatch and resource handling

A shallow embedding of `src/vxectl.cpp` and `src/set.cpp`.

The program talks to two external libraries, hidapi and CLI11.  Every call into
hidapi, every read of an entry of the enumeration snapshot and every line
printed is recorded, in program order, in a trace of `Event`s; the program
state is that trace.  What hidapi answers is not fixed by the program: it is
given by a `Hidapi` oracle whose answers may depend on everything that has
happened so far (the trace at the time of the call).  A C pointer that may be
null is an `Option`, the `next`-linked enumeration is a `List`.
-/

namespace Madr

/-! ## Data model -/

/-- An open device (`hid_device`); a non-null `hid_device*` is identified by a number. -/
abbrev hid_device := Nat

/-- The fields of `struct hid_device_info` that the program looks at (the
`next` pointer is the tail of the list the entry sits in). -/
structure hid_device_info where
  path : String
  vendor_id : Nat
  product_id : Nat
  interface_number : Int
deriving DecidableEq

/-- The members of `hid_device_info` that `find_mouse_device` dereferences. -/
inductive Field where
  | product_id
  | interface_number
  | path
  | next
deriving DecidableEq

/-- One observable step of a run.  `print line` is a line of text written to
`std::cout`; `print_pointer text address` is a line made of `text` followed by
a pointer value, as the stream renders the address. -/
inductive Event where
  | hid_init (ret : Int)
  | hid_error
  | hid_exit
  | hid_enumerate (vendor_id product_id : Nat)
  | read (entry : hid_device_info) (field : Field)
  | hid_open_path (path : String) (ret : Option hid_device)
  | hid_free_enumeration
  | hid_close (dev : hid_device)
  | hid_send_feature_report (dev : hid_device) (data : List Nat) (length : Nat) (ret : Int)
  | print (line : String)
  | print_pointer (text : String) (address : Nat)
  | app_exit (code : Int)
deriving DecidableEq

/-- The answers of hidapi (and of the hardware behind it).  Each answer may
depend on the whole history of the run up to the call.  `hid_error` returns a
`const wchar_t*`, here the address it points to. -/
structure Hidapi where
  hid_init : List Event → Int
  hid_error : List Event → Nat
  hid_enumerate : List Event → Nat → Nat → List hid_device_info
  hid_open_path : List Event → String → Option hid_device
  hid_send_feature_report : List Event → hid_device → List Nat → Nat → Int

/-- Constant `MADR_VID` of vxectl.cpp:6. -/
def MADR_VID : Nat := 0x373b

/-- Constant `MADR_WIRED_PID` of vxectl.cpp:7. -/
def MADR_WIRED_PID : Nat := 0x103f

/-- Constant `MADR_WIRELESS_PID` of vxectl.cpp:8. -/
def MADR_WIRELESS_PID : Nat := 0x1040

/-! ## Device discovery (vxectl.cpp:10-28) -/

/-- The `while (cur_dev)` loop of `find_mouse_device` (vxectl.cpp:16-24).  The
list is what remains from `cur_dev` on, `device` is the local variable of that
name.  `&&` short-circuits: `interface_number` is read only when the product
id is a known one. -/
def find_mouse_device_loop (api : Hidapi) :
    List hid_device_info → Option hid_device → List Event → Option hid_device × List Event
  | [], device, t => (device, t)
  | cur_dev :: next, device, t =>
    let pid_known := cur_dev.product_id == MADR_WIRED_PID || cur_dev.product_id == MADR_WIRELESS_PID
    let t1 := t ++ [Event.read cur_dev Field.product_id]
    let t2 := if pid_known then t1 ++ [Event.read cur_dev Field.interface_number] else t1
    if pid_known && cur_dev.interface_number == 1 then
      let t3 := t2 ++ [Event.read cur_dev Field.path]
      let opened := api.hid_open_path t3 cur_dev.path
      let t4 := t3 ++ [Event.hid_open_path cur_dev.path opened]
      if opened.isSome then (opened, t4)
      else find_mouse_device_loop api next opened (t4 ++ [Event.read cur_dev Field.next])
    else find_mouse_device_loop api next device (t2 ++ [Event.read cur_dev Field.next])

/-- Function `find_mouse_device` of vxectl.cpp:10-28. -/
def find_mouse_device (api : Hidapi) (t : List Event) : Option hid_device × List Event :=
  let devs := api.hid_enumerate t MADR_VID 0x0
  let t1 := t ++ [Event.hid_enumerate MADR_VID 0x0]
  let scan := find_mouse_device_loop api devs none t1
  (scan.1, scan.2 ++ [Event.hid_free_enumeration])

/-! ## The `set` subcommand (set.hpp, set.cpp) -/

/-- Modelled from the spec: `DPIStage::get_magic_packet` is defined in
`dpi_stage.hpp`, which is not among the sources.  Spec section 4.2 gives its
contract as `encode_dpi_stage(stage: u8) -> [u8; N]` with `N` a fixed,
protocol-defined length, a pure and total function whose literal bytes are a
vendor table the spec does not prescribe.  The table and `N` are therefore
fields; `size_eq` is the fixed array size of the return type. -/
structure DPIStage where
  N : Nat
  get_magic_packet : Fin 256 → List Nat
  size_eq : ∀ stage, (get_magic_packet stage).length = N

namespace SetCommand

/-- The struct `SetOptions` of set.hpp:7-9; `dpi_stage` is a `uint8_t`. -/
structure SetOptions where
  dpi_stage : Fin 256
deriving DecidableEq

/-- Function `SetCommand::dpi_stage` of set.cpp:6-11. -/
def dpi_stage (enc : DPIStage) (api : Hidapi) (device : hid_device) (opt : SetOptions)
    (t : List Event) : List Event :=
  let packet := enc.get_magic_packet opt.dpi_stage
  let ret := api.hid_send_feature_report t device packet packet.length
  let t1 := t ++ [Event.hid_send_feature_report device packet packet.length ret]
  if ret == -1 then t1 ++ [Event.print "Failed to send command."] else t1

end SetCommand

/-- What `main` uses of a `CLI::App`: whether a subcommand is required and the
callback registered for the `set` subcommand, if any. -/
structure App where
  require_subcommand : Bool
  set_cmd : Option (SetCommand.SetOptions → List Event → List Event)

namespace SetCommand

/-- Function `SetCommand::setup_set_subcommand` of set.cpp:13-20: adds the
subcommand `set` whose callback runs `dpi_stage` on the captured device with
the options the parser filled in. -/
def setup_set_subcommand (enc : DPIStage) (api : Hidapi) (app : App) (device : hid_device) : App :=
  { app with set_cmd := some (fun opt t => dpi_stage enc api device opt t) }

/-- Modelled from the spec: `SetCommand::setup` is declared in set.hpp:11 and
called by `main`, but no definition of it is among the sources.  Spec section 6
gives the program exactly one subcommand, `set`, with the option
`-s, --dpi-stage`; that is what `setup_set_subcommand` of set.cpp registers, so
`setup` is taken to register it. -/
def setup (enc : DPIStage) (api : Hidapi) (app : App) (device : hid_device) : App :=
  setup_set_subcommand enc api app device

end SetCommand

/-! ## main (vxectl.cpp:30-54) -/

/-- What `app.parse(argc, argv)` of CLI11 does with the command line, for an
application that requires a subcommand and has the single subcommand `set`:
either it throws a `CLI::ParseError` before any callback has run (no or an
unknown subcommand, an unknown option, a value that is not a `uint8_t`,
`--help`), where `app.exit(e)` reports it and yields `exit_code`; or it parses
`set`, leaves `opt` in the options struct and runs the callback of `set`. -/
inductive ParseOutcome where
  | parse_error (exit_code : Int)
  | set (opt : SetCommand.SetOptions)
deriving DecidableEq

/-- The macro `CLI11_PARSE(app, argc, argv)` of CLI11, which expands to
`try { app.parse(argc, argv); } catch (const CLI::ParseError &e) { return app.exit(e); }`.
`Except.error` is the `return` out of the enclosing function with that value. -/
def CLI11_PARSE (app : App) (cli : ParseOutcome) (t : List Event) :
    Except (Int × List Event) (List Event) :=
  match cli with
  | ParseOutcome.parse_error code => Except.error (code, t ++ [Event.app_exit code])
  | ParseOutcome.set opt =>
    match app.set_cmd with
    | some callback => Except.ok (callback opt t)
    | none => Except.ok t

/-- Function `main` of vxectl.cpp:30-54: the exit code and the trace of the
run.  `cli` stands for `argc, argv` as CLI11 reads them.  At vxectl.cpp:32 the
`const wchar_t*` of `hid_error(nullptr)` is streamed into the narrow
`std::cout`, which writes the pointer value and not the message text. -/
def main (enc : DPIStage) (api : Hidapi) (cli : ParseOutcome) : Int × List Event :=
  let r := api.hid_init []
  let t1 := [Event.hid_init r]
  if r == -1 then
    let msg := api.hid_error t1
    (-1, t1 ++ [Event.hid_error, Event.print_pointer "Failed to initialize HIDAPI: " msg])
  else
    match find_mouse_device api t1 with
    | (none, t2) =>
      (-1, t2 ++ [Event.print "No compatible device found on Interface 1.", Event.hid_exit])
    | (some device, t2) =>
      let app : App := { require_subcommand := true, set_cmd := none }
      let app := SetCommand.setup enc api app device
      match CLI11_PARSE app cli t2 with
      | Except.error ret => ret
      | Except.ok t3 => (0, t3 ++ [Event.hid_close device, Event.hid_exit])

/-! ## Vocabulary of the properties -/

/-- An entry that passes both filters, in the words of the specification: its
product id is 0x103f or 0x1040 and its interface number is 1. -/
def Candidate (d : hid_device_info) : Prop :=
  (d.product_id = 0x103f ∨ d.product_id = 0x1040) ∧ d.interface_number = 1

instance : DecidablePred Candidate := fun d => by
  unfold Candidate
  infer_instance

/-- The call of `hid_open_path` an event records, if it records one: the path
passed and the pointer returned. -/
def Event.open_call : Event → Option (String × Option hid_device)
  | Event.hid_open_path p r => some (p, r)
  | _ => none

/-- The calls of `hid_open_path` in a trace, in order. -/
def opens (t : List Event) : List (String × Option hid_device) :=
  t.filterMap Event.open_call

/-- The product-id test of vxectl.cpp:17. -/
def pid_known (d : hid_device_info) : Bool :=
  d.product_id == MADR_WIRED_PID || d.product_id == MADR_WIRELESS_PID

/-- What one iteration of the scan over `devs` may add to the trace: a read of
an entry of `devs`, or a call of `hid_open_path` on the path of an entry of
`devs` that passes both filters. -/
def ScanEvent (devs : List hid_device_info) (e : Event) : Prop :=
  (∃ d f, d ∈ devs ∧ e = Event.read d f) ∨
  (∃ d r, d ∈ devs ∧ Candidate d ∧ e = Event.hid_open_path d.path r)

/-- The outcome of the scan in terms of the open attempts it made. -/
def ScanOutcome (devs : List hid_device_info) (result : Option hid_device)
    (new : List Event) : Prop :=
  (∃ pre d post h, devs = pre ++ d :: post ∧ Candidate d ∧ result = some h ∧
      opens new = (pre.filter (fun e => Candidate e)).map (fun e => (e.path, none))
        ++ [(d.path, some h)]) ∨
  (result = none ∧
      opens new = (devs.filter (fun e => Candidate e)).map (fun e => (e.path, none)))

/-- The calls of `hid_send_feature_report` in a trace, in order: device, buffer,
length argument and return value. -/
def sends (t : List Event) : List (hid_device × List Nat × Nat × Int) :=
  t.filterMap fun e =>
    match e with
    | Event.hid_send_feature_report dev data len ret => some (dev, data, len, ret)
    | _ => none

/-- The handles that calls of `hid_open_path` returned, in order. -/
def opened (t : List Event) : List hid_device :=
  t.filterMap fun e =>
    match e with
    | Event.hid_open_path _ (some h) => some h
    | _ => none

/-- The handles passed to `hid_close`, in order. -/
def closed (t : List Event) : List hid_device :=
  t.filterMap fun e =>
    match e with
    | Event.hid_close h => some h
    | _ => none

/-- Every call of `hid_open_path` recorded in a continuation of the history
`hist` records what the oracle answers at the history up to that call. -/
def OracleOpens (api : Hidapi) : List Event → List Event → Prop
  | _, [] => True
  | hist, e :: rest =>
    (∀ p r, e = Event.hid_open_path p r → r = api.hid_open_path hist p) ∧
      OracleOpens api (hist ++ [e]) rest

/-! ## Sample environments -/

/-- A bus with a foreign device, a wired mouse (interfaces 0 and 1) and a
wireless receiver (interface 1). -/
def sample_bus : List hid_device_info :=
  [ { path := "1-1:1.1", vendor_id := 0x373b, product_id := 0x2000, interface_number := 1 },
    { path := "1-2:1.0", vendor_id := 0x373b, product_id := 0x103f, interface_number := 0 },
    { path := "1-2:1.1", vendor_id := 0x373b, product_id := 0x103f, interface_number := 1 },
    { path := "1-3:1.1", vendor_id := 0x373b, product_id := 0x1040, interface_number := 1 } ]

/-- The bus `sample_bus`; the wired mouse cannot be opened, the wireless
receiver opens as handle 7; sending writes the whole buffer. -/
def api_attached : Hidapi where
  hid_init := fun _ => 0
  hid_error := fun _ => 0x7f10
  hid_enumerate := fun _ _ _ => sample_bus
  hid_open_path := fun _ p => if p = "1-3:1.1" then some 7 else none
  hid_send_feature_report := fun _ _ _ len => len

/-- As `api_attached`, but the feature report cannot be sent. -/
def api_send_fails : Hidapi where
  hid_init := fun _ => 0
  hid_error := fun _ => 0x7f10
  hid_enumerate := fun _ _ _ => sample_bus
  hid_open_path := fun _ p => if p = "1-3:1.1" then some 7 else none
  hid_send_feature_report := fun _ _ _ _ => -1

/-- The library fails to initialise. -/
def api_init_fails : Hidapi where
  hid_init := fun _ => -1
  hid_error := fun _ => 0x7f20
  hid_enumerate := fun _ _ _ => sample_bus
  hid_open_path := fun _ p => if p = "1-3:1.1" then some 7 else none
  hid_send_feature_report := fun _ _ _ len => len

/-- A bus on which nothing passes both filters: a foreign product on interface
1 and the wired mouse on interface 0 only. -/
def api_no_candidate : Hidapi where
  hid_init := fun _ => 0
  hid_error := fun _ => 0x7f10
  hid_enumerate := fun _ _ _ => sample_bus.take 2
  hid_open_path := fun _ _ => some 9
  hid_send_feature_report := fun _ _ _ len => len

/-- A stand-in packet table for running `main`; the vendor's bytes are in
`dpi_stage.hpp` and not in the sources. -/
def sample_table : DPIStage where
  N := 3
  get_magic_packet := fun stage => [8, stage.val, 0]
  size_eq := fun _ => rfl

/-! ## The scan, one iteration at a time -/

theorem candidate_iff (d : hid_device_info) :
    Candidate d ↔ (pid_known d = true ∧ d.interface_number = 1) := by
  simp [Candidate, pid_known, MADR_WIRED_PID, MADR_WIRELESS_PID]

theorem loop_nil (api : Hidapi) (device : Option hid_device) (t : List Event) :
    find_mouse_device_loop api [] device t = (device, t) := by
  simp [find_mouse_device_loop]

theorem loop_unknown_pid (api : Hidapi) (d : hid_device_info) (rest : List hid_device_info)
    (device : Option hid_device) (t : List Event) (h : pid_known d = false) :
    find_mouse_device_loop api (d :: rest) device t =
      find_mouse_device_loop api rest device
        (t ++ [Event.read d Field.product_id, Event.read d Field.next]) := by
  unfold pid_known at h
  simp [find_mouse_device_loop, h]

theorem loop_other_interface (api : Hidapi) (d : hid_device_info) (rest : List hid_device_info)
    (device : Option hid_device) (t : List Event) (h : pid_known d = true)
    (hi : d.interface_number ≠ 1) :
    find_mouse_device_loop api (d :: rest) device t =
      find_mouse_device_loop api rest device
        (t ++ [Event.read d Field.product_id, Event.read d Field.interface_number,
               Event.read d Field.next]) := by
  unfold pid_known at h
  simp [find_mouse_device_loop, h, hi]

theorem loop_open_ok (api : Hidapi) (d : hid_device_info) (rest : List hid_device_info)
    (device : Option hid_device) (t : List Event) (hc : Candidate d) (h : hid_device)
    (ho : api.hid_open_path (t ++ [Event.read d Field.product_id,
        Event.read d Field.interface_number, Event.read d Field.path]) d.path = some h) :
    find_mouse_device_loop api (d :: rest) device t =
      (some h, t ++ [Event.read d Field.product_id, Event.read d Field.interface_number,
               Event.read d Field.path, Event.hid_open_path d.path (some h)]) := by
  obtain ⟨hp, hi⟩ := (candidate_iff d).1 hc
  unfold pid_known at hp
  simp [find_mouse_device_loop, hp, hi, ho]

theorem loop_open_fail (api : Hidapi) (d : hid_device_info) (rest : List hid_device_info)
    (device : Option hid_device) (t : List Event) (hc : Candidate d)
    (ho : api.hid_open_path (t ++ [Event.read d Field.product_id,
        Event.read d Field.interface_number, Event.read d Field.path]) d.path = none) :
    find_mouse_device_loop api (d :: rest) device t =
      find_mouse_device_loop api rest none
        (t ++ [Event.read d Field.product_id, Event.read d Field.interface_number,
               Event.read d Field.path, Event.hid_open_path d.path none,
               Event.read d Field.next]) := by
  obtain ⟨hp, hi⟩ := (candidate_iff d).1 hc
  unfold pid_known at hp
  simp [find_mouse_device_loop, hp, hi, ho]

theorem ScanEvent.read_head (d : hid_device_info) (rest : List hid_device_info) (f : Field) :
    ScanEvent (d :: rest) (Event.read d f) :=
  Or.inl ⟨d, f, List.mem_cons_self d rest, rfl⟩

theorem ScanEvent.open_head (d : hid_device_info) (rest : List hid_device_info)
    (hc : Candidate d) (r : Option hid_device) :
    ScanEvent (d :: rest) (Event.hid_open_path d.path r) :=
  Or.inr ⟨d, r, List.mem_cons_self d rest, hc, rfl⟩

theorem ScanEvent.tail (d : hid_device_info) (rest : List hid_device_info) (e : Event)
    (h : ScanEvent rest e) : ScanEvent (d :: rest) e := by
  rcases h with ⟨x, f, hx, rfl⟩ | ⟨x, r, hx, hc, rfl⟩
  · exact Or.inl ⟨x, f, List.mem_cons_of_mem d hx, rfl⟩
  · exact Or.inr ⟨x, r, List.mem_cons_of_mem d hx, hc, rfl⟩

theorem ScanOutcome.skip (d : hid_device_info) (rest : List hid_device_info)
    (result : Option hid_device) (pre new : List Event) (hc : ¬ Candidate d)
    (hpre : opens pre = []) (h : ScanOutcome rest result new) :
    ScanOutcome (d :: rest) result (pre ++ new) := by
  rcases h with ⟨p, x, post, h, hd, hx, hr, ho⟩ | ⟨hr, ho⟩
  · refine Or.inl ⟨d :: p, x, post, h, by simp [hd], hx, hr, ?_⟩
    simp only [opens] at ho hpre ⊢
    simp [List.filterMap_append, hpre, ho, hc]
  · refine Or.inr ⟨hr, ?_⟩
    simp only [opens] at ho hpre ⊢
    simp [List.filterMap_append, hpre, ho, hc]

theorem ScanOutcome.fail (d : hid_device_info) (rest : List hid_device_info)
    (result : Option hid_device) (pre new : List Event) (hc : Candidate d)
    (hpre : opens pre = [(d.path, none)]) (h : ScanOutcome rest result new) :
    ScanOutcome (d :: rest) result (pre ++ new) := by
  rcases h with ⟨p, x, post, h, hd, hx, hr, ho⟩ | ⟨hr, ho⟩
  · refine Or.inl ⟨d :: p, x, post, h, by simp [hd], hx, hr, ?_⟩
    simp only [opens] at ho hpre ⊢
    simp [List.filterMap_append, hpre, ho, hc]
  · refine Or.inr ⟨hr, ?_⟩
    simp only [opens] at ho hpre ⊢
    simp [List.filterMap_append, hpre, ho, hc]

/-- The scan only appends to the trace; what it appends are reads of entries
and open calls on entries that pass the filters; and its result is that of the
first open call that succeeded, every earlier candidate having been tried. -/
theorem loop_spec (api : Hidapi) (devs : List hid_device_info) :
    ∀ t, ∃ new, (find_mouse_device_loop api devs none t).2 = t ++ new ∧
      (∀ e ∈ new, ScanEvent devs e) ∧
      ScanOutcome devs (find_mouse_device_loop api devs none t).1 new := by
  induction devs with
  | nil =>
    intro t
    exact ⟨[], by simp [loop_nil], by simp, Or.inr ⟨by simp [loop_nil], by simp [opens]⟩⟩
  | cons d rest ih =>
    intro t
    by_cases hc : Candidate d
    · cases ho : api.hid_open_path (t ++ [Event.read d Field.product_id,
          Event.read d Field.interface_number, Event.read d Field.path]) d.path with
      | some h =>
        rw [loop_open_ok api d rest none t hc h ho]
        refine ⟨[Event.read d Field.product_id, Event.read d Field.interface_number,
          Event.read d Field.path, Event.hid_open_path d.path (some h)], rfl, ?_, ?_⟩
        · intro e he
          simp only [List.mem_cons, List.mem_singleton, List.not_mem_nil, or_false] at he
          rcases he with rfl | rfl | rfl | rfl
          · exact ScanEvent.read_head d rest _
          · exact ScanEvent.read_head d rest _
          · exact ScanEvent.read_head d rest _
          · exact ScanEvent.open_head d rest hc _
        · exact Or.inl ⟨[], d, rest, h, rfl, hc, rfl, by simp [opens, Event.open_call]⟩
      | none =>
        rw [loop_open_fail api d rest none t hc ho]
        obtain ⟨new, h1, h2, h3⟩ := ih (t ++ [Event.read d Field.product_id,
          Event.read d Field.interface_number, Event.read d Field.path,
          Event.hid_open_path d.path none, Event.read d Field.next])
        refine ⟨[Event.read d Field.product_id, Event.read d Field.interface_number,
          Event.read d Field.path, Event.hid_open_path d.path none,
          Event.read d Field.next] ++ new, by simp [h1], ?_, ?_⟩
        · intro e he
          rcases List.mem_append.1 he with he | he
          · simp only [List.mem_cons, List.mem_singleton, List.not_mem_nil, or_false] at he
            rcases he with rfl | rfl | rfl | rfl | rfl
            · exact ScanEvent.read_head d rest _
            · exact ScanEvent.read_head d rest _
            · exact ScanEvent.read_head d rest _
            · exact ScanEvent.open_head d rest hc _
            · exact ScanEvent.read_head d rest _
          · exact ScanEvent.tail d rest e (h2 e he)
        · exact ScanOutcome.fail d rest _ _ new hc (by simp [opens, Event.open_call]) h3
    · by_cases hp : pid_known d = true
      · have hi : d.interface_number ≠ 1 := fun hi => hc ((candidate_iff d).2 ⟨hp, hi⟩)
        rw [loop_other_interface api d rest none t hp hi]
        obtain ⟨new, h1, h2, h3⟩ := ih (t ++ [Event.read d Field.product_id,
          Event.read d Field.interface_number, Event.read d Field.next])
        refine ⟨[Event.read d Field.product_id, Event.read d Field.interface_number,
          Event.read d Field.next] ++ new, by simp [h1], ?_, ?_⟩
        · intro e he
          rcases List.mem_append.1 he with he | he
          · simp only [List.mem_cons, List.mem_singleton, List.not_mem_nil, or_false] at he
            rcases he with rfl | rfl | rfl
            · exact ScanEvent.read_head d rest _
            · exact ScanEvent.read_head d rest _
            · exact ScanEvent.read_head d rest _
          · exact ScanEvent.tail d rest e (h2 e he)
        · exact ScanOutcome.skip d rest _ _ new hc (by simp [opens, Event.open_call]) h3
      · have hp : pid_known d = false := by simpa using hp
        rw [loop_unknown_pid api d rest none t hp]
        obtain ⟨new, h1, h2, h3⟩ := ih (t ++ [Event.read d Field.product_id,
          Event.read d Field.next])
        refine ⟨[Event.read d Field.product_id, Event.read d Field.next] ++ new,
          by simp [h1], ?_, ?_⟩
        · intro e he
          rcases List.mem_append.1 he with he | he
          · simp only [List.mem_cons, List.mem_singleton, List.not_mem_nil, or_false] at he
            rcases he with rfl | rfl
            · exact ScanEvent.read_head d rest _
            · exact ScanEvent.read_head d rest _
          · exact ScanEvent.tail d rest e (h2 e he)
        · exact ScanOutcome.skip d rest _ _ new hc (by simp [opens, Event.open_call]) h3

/-! ## find_mouse_device as a whole -/

theorem find_spec (api : Hidapi) (t : List Event) :
    ∃ body, (find_mouse_device api t).2 =
        t ++ (Event.hid_enumerate MADR_VID 0 :: body ++ [Event.hid_free_enumeration]) ∧
      (∀ e ∈ body, ScanEvent (api.hid_enumerate t MADR_VID 0) e) ∧
      ScanOutcome (api.hid_enumerate t MADR_VID 0) (find_mouse_device api t).1 body := by
  obtain ⟨new, h1, h2, h3⟩ :=
    loop_spec api (api.hid_enumerate t MADR_VID 0) (t ++ [Event.hid_enumerate MADR_VID 0])
  refine ⟨new, ?_, h2, ?_⟩
  · simp [find_mouse_device, h1]
  · simpa [find_mouse_device] using h3

theorem drop_emitted (t new : List Event) : (t ++ new).drop t.length = new := by
  simp

theorem opens_around (body : List Event) :
    opens (Event.hid_enumerate MADR_VID 0 :: body ++ [Event.hid_free_enumeration]) =
      opens body := by
  simp [opens, Event.open_call, List.filterMap_append]

theorem opened_eq_opens (t : List Event) :
    opened t = (opens t).filterMap (fun a => a.2) := by
  induction t with
  | nil => rfl
  | cons e t ih =>
    cases e with
    | hid_open_path p r =>
      cases r <;> simp_all [opened, opens, Event.open_call]
    | _ => simp_all [opened, opens, Event.open_call]

theorem filterMap_failed (l : List hid_device_info) :
    (l.map (fun e => ((e.path, none) : String × Option hid_device))).filterMap (fun a => a.2)
      = [] := by
  induction l with
  | nil => rfl
  | cons e l ih => simp

theorem ScanOutcome.opened (devs : List hid_device_info) (result : Option hid_device)
    (body : List Event) (h : ScanOutcome devs result body) :
    opened body = result.toList := by
  rw [opened_eq_opens]
  rcases h with ⟨pre, d, post, h, -, -, hr, ho⟩ | ⟨hr, ho⟩
  · rw [ho, hr, List.filterMap_append, filterMap_failed]
    rfl
  · rw [ho, hr, filterMap_failed]
    rfl

theorem ScanEvent.of_open (devs : List hid_device_info) (p : String) (r : Option hid_device)
    (h : ScanEvent devs (Event.hid_open_path p r)) :
    ∃ d ∈ devs, Candidate d ∧ d.path = p := by
  rcases h with ⟨x, f, -, he⟩ | ⟨x, r', hx, hc, he⟩
  · simp at he
  · simp only [Event.hid_open_path.injEq] at he
    exact ⟨x, hx, hc, he.1.symm⟩

/-! ## The open calls and the oracle -/

theorem OracleOpens.append (api : Hidapi) (a b : List Event) :
    ∀ hist, OracleOpens api hist (a ++ b) ↔
      OracleOpens api hist a ∧ OracleOpens api (hist ++ a) b := by
  induction a with
  | nil => intro hist; simp [OracleOpens]
  | cons e a ih =>
    intro hist
    have h := ih (hist ++ [e])
    rw [List.append_assoc, List.singleton_append] at h
    show (_ ∧ OracleOpens api (hist ++ [e]) (a ++ b)) ↔
      (_ ∧ OracleOpens api (hist ++ [e]) a) ∧ OracleOpens api (hist ++ e :: a) b
    rw [h, and_assoc]

theorem OracleOpens.at_split (api : Hidapi) (hist pre rest : List Event) (p : String)
    (r : Option hid_device)
    (h : OracleOpens api hist (pre ++ Event.hid_open_path p r :: rest)) :
    r = api.hid_open_path (hist ++ pre) p := by
  rw [OracleOpens.append] at h
  exact h.2.1 p r rfl

theorem loop_oracle (api : Hidapi) (devs : List hid_device_info) :
    ∀ t, ∃ new, (find_mouse_device_loop api devs none t).2 = t ++ new ∧
      OracleOpens api t new := by
  induction devs with
  | nil =>
    intro t
    exact ⟨[], by simp [loop_nil], trivial⟩
  | cons d rest ih =>
    intro t
    by_cases hc : Candidate d
    · cases ho : api.hid_open_path (t ++ [Event.read d Field.product_id,
          Event.read d Field.interface_number, Event.read d Field.path]) d.path with
      | some h =>
        rw [loop_open_ok api d rest none t hc h ho]
        refine ⟨[Event.read d Field.product_id, Event.read d Field.interface_number,
          Event.read d Field.path, Event.hid_open_path d.path (some h)], rfl, ?_⟩
        simp [OracleOpens, ho]
      | none =>
        rw [loop_open_fail api d rest none t hc ho]
        obtain ⟨new, h1, h2⟩ := ih (t ++ [Event.read d Field.product_id,
          Event.read d Field.interface_number, Event.read d Field.path,
          Event.hid_open_path d.path none, Event.read d Field.next])
        refine ⟨[Event.read d Field.product_id, Event.read d Field.interface_number,
          Event.read d Field.path, Event.hid_open_path d.path none,
          Event.read d Field.next] ++ new, by simp [h1], ?_⟩
        rw [OracleOpens.append]
        exact ⟨by simp [OracleOpens, ho], h2⟩
    · by_cases hp : pid_known d = true
      · have hi : d.interface_number ≠ 1 := fun hi => hc ((candidate_iff d).2 ⟨hp, hi⟩)
        rw [loop_other_interface api d rest none t hp hi]
        obtain ⟨new, h1, h2⟩ := ih (t ++ [Event.read d Field.product_id,
          Event.read d Field.interface_number, Event.read d Field.next])
        refine ⟨[Event.read d Field.product_id, Event.read d Field.interface_number,
          Event.read d Field.next] ++ new, by simp [h1], ?_⟩
        rw [OracleOpens.append]
        exact ⟨by simp [OracleOpens], h2⟩
      · have hp : pid_known d = false := by simpa using hp
        rw [loop_unknown_pid api d rest none t hp]
        obtain ⟨new, h1, h2⟩ := ih (t ++ [Event.read d Field.product_id,
          Event.read d Field.next])
        refine ⟨[Event.read d Field.product_id, Event.read d Field.next] ++ new,
          by simp [h1], ?_⟩
        rw [OracleOpens.append]
        exact ⟨by simp [OracleOpens], h2⟩

theorem find_oracle (api : Hidapi) (t : List Event) :
    OracleOpens api t ((find_mouse_device api t).2.drop t.length) := by
  obtain ⟨new, h1, h2⟩ :=
    loop_oracle api (api.hid_enumerate t MADR_VID 0) (t ++ [Event.hid_enumerate MADR_VID 0])
  have hd : (find_mouse_device api t).2.drop t.length =
      [Event.hid_enumerate MADR_VID 0] ++ (new ++ [Event.hid_free_enumeration]) := by
    have : (find_mouse_device api t).2 =
        t ++ ([Event.hid_enumerate MADR_VID 0] ++ (new ++ [Event.hid_free_enumeration])) := by
      simp [find_mouse_device, h1]
    rw [this]
    exact drop_emitted t _
  rw [hd, OracleOpens.append, OracleOpens.append]
  exact ⟨by simp [OracleOpens], h2, by simp [OracleOpens]⟩

/-- With an oracle whose answer to `hid_open_path` depends on the path only,
the scan returns what opening the first openable candidate returns. -/
theorem loop_first_openable (api : Hidapi) (f : String → Option hid_device)
    (hf : ∀ hist p, api.hid_open_path hist p = f p) (devs : List hid_device_info) :
    ∀ t, (find_mouse_device_loop api devs none t).1 =
      (devs.find? (fun d => decide (Candidate d) && (f d.path).isSome)).bind
        (fun d => f d.path) := by
  induction devs with
  | nil =>
    intro t
    simp [loop_nil]
  | cons d rest ih =>
    intro t
    by_cases hc : Candidate d
    · cases ho : f d.path with
      | some h =>
        rw [loop_open_ok api d rest none t hc h ((hf _ _).trans ho)]
        simp [List.find?_cons, hc, ho]
      | none =>
        rw [loop_open_fail api d rest none t hc ((hf _ _).trans ho), ih]
        simp [List.find?_cons, ho]
    · by_cases hp : pid_known d = true
      · have hi : d.interface_number ≠ 1 := fun hi => hc ((candidate_iff d).2 ⟨hp, hi⟩)
        rw [loop_other_interface api d rest none t hp hi, ih]
        simp [List.find?_cons, hc]
      · have hp : pid_known d = false := by simpa using hp
        rw [loop_unknown_pid api d rest none t hp, ih]
        simp [List.find?_cons, hc]

theorem first_openable_none (f : String → Option hid_device) (devs : List hid_device_info) :
    (devs.find? (fun d => decide (Candidate d) && (f d.path).isSome)).bind
        (fun d => f d.path) = none ↔
      ∀ d ∈ devs, Candidate d → f d.path = none := by
  induction devs with
  | nil => simp
  | cons d rest ih =>
    by_cases hc : Candidate d
    · cases ho : f d.path with
      | some h => simp [List.find?_cons, hc, ho]
      | none => simpa [List.find?_cons, hc, ho] using ih
    · simpa [List.find?_cons, hc] using ih

/-! ## Device discovery: the claims -/

/-- C1. `find_mouse_device` only appends to the trace, and the calls of
`hid_open_path` it makes are: one failed call for each entry before `d` that
passes both filters, in enumeration order, then the call on `d` that returned
the handle `h` it returns, where `d` passes both filters; or else one failed
call for every entry that passes both filters, and it returns null.  It returns
null exactly when none of its open calls succeeded.  Each recorded open call
carries the answer `hid_open_path` gave at that point of the run.  When the
outcome of `hid_open_path` depends on the path only, the result is the outcome
on the first entry, in enumeration order, that passes both filters and whose
open succeeds, and it is null exactly when the open fails on every entry that
passes both filters (in particular when none passes). -/
theorem find_mouse_device_first_openable (api : Hidapi) (t : List Event) :
    (find_mouse_device api t).2 = t ++ (find_mouse_device api t).2.drop t.length ∧
    ((∃ pre d post h, api.hid_enumerate t MADR_VID 0 = pre ++ d :: post ∧ Candidate d ∧
        (find_mouse_device api t).1 = some h ∧
        opens ((find_mouse_device api t).2.drop t.length) =
          (pre.filter (fun e => Candidate e)).map (fun e => (e.path, none))
            ++ [(d.path, some h)]) ∨
     ((find_mouse_device api t).1 = none ∧
        opens ((find_mouse_device api t).2.drop t.length) =
          ((api.hid_enumerate t MADR_VID 0).filter (fun e => Candidate e)).map
            (fun e => (e.path, none)))) ∧
    ((find_mouse_device api t).1 = none ↔
      ∀ a ∈ opens ((find_mouse_device api t).2.drop t.length), a.2 = none) ∧
    (∀ hist p r rest,
      (find_mouse_device api t).2.drop t.length = hist ++ Event.hid_open_path p r :: rest →
      r = api.hid_open_path (t ++ hist) p) ∧
    (∀ f : String → Option hid_device, (∀ hist p, api.hid_open_path hist p = f p) →
      (find_mouse_device api t).1 =
        ((api.hid_enumerate t MADR_VID 0).find?
          (fun d => decide (Candidate d) && (f d.path).isSome)).bind (fun d => f d.path) ∧
      ((find_mouse_device api t).1 = none ↔
        ∀ d ∈ api.hid_enumerate t MADR_VID 0, Candidate d → f d.path = none)) := by
  have hevents : (find_mouse_device api t).2 = t ++ (find_mouse_device api t).2.drop t.length ∧
      ((∃ pre d post h, api.hid_enumerate t MADR_VID 0 = pre ++ d :: post ∧ Candidate d ∧
          (find_mouse_device api t).1 = some h ∧
          opens ((find_mouse_device api t).2.drop t.length) =
            (pre.filter (fun e => Candidate e)).map (fun e => (e.path, none))
              ++ [(d.path, some h)]) ∨
       ((find_mouse_device api t).1 = none ∧
          opens ((find_mouse_device api t).2.drop t.length) =
            ((api.hid_enumerate t MADR_VID 0).filter (fun e => Candidate e)).map
              (fun e => (e.path, none)))) ∧
      ((find_mouse_device api t).1 = none ↔
        ∀ a ∈ opens ((find_mouse_device api t).2.drop t.length), a.2 = none) := by
    obtain ⟨body, h1, -, h3⟩ := find_spec api t
    have hd : (find_mouse_device api t).2.drop t.length =
        Event.hid_enumerate MADR_VID 0 :: body ++ [Event.hid_free_enumeration] := by
      rw [h1]
      exact drop_emitted t _
    rw [hd, opens_around]
    refine ⟨h1, h3, ?_⟩
    rcases h3 with ⟨pre, d, post, h, -, -, hr, ho⟩ | ⟨hr, ho⟩
    · rw [hr, ho]
      constructor
      · intro hn
        cases hn
      · intro hall
        have := hall (d.path, some h) (by simp)
        cases this
    · rw [hr, ho]
      constructor
      · intro _ a ha
        obtain ⟨e, -, rfl⟩ := List.mem_map.1 ha
        rfl
      · intro _
        rfl
  refine ⟨hevents.1, hevents.2.1, hevents.2.2, ?_, ?_⟩
  · intro hist p r rest hsplit
    have ho := find_oracle api t
    rw [hsplit] at ho
    exact OracleOpens.at_split api t hist rest p r ho
  · intro f hf
    have hres : (find_mouse_device api t).1 =
        ((api.hid_enumerate t MADR_VID 0).find?
          (fun d => decide (Candidate d) && (f d.path).isSome)).bind (fun d => f d.path) :=
      loop_first_openable api f hf (api.hid_enumerate t MADR_VID 0)
        (t ++ [Event.hid_enumerate MADR_VID 0])
    exact ⟨hres, by rw [hres]; exact first_openable_none f _⟩

/-- Witness of C1: on the sample bus the foreign product and interface 0 are
skipped, the wired mouse on interface 1 fails to open, and the result is the
handle 7 that opening the wireless receiver on interface 1 gives. -/
theorem find_mouse_device_first_openable_witness :
    (find_mouse_device api_attached []).1 =
        (sample_bus.find? (fun d => decide (Candidate d) &&
          (if d.path = "1-3:1.1" then some 7 else none : Option hid_device).isSome)).bind
          (fun d => if d.path = "1-3:1.1" then some 7 else none) ∧
    (find_mouse_device api_attached []).1 = some 7 :=
  ⟨((find_mouse_device_first_openable api_attached []).2.2.2.2
      (fun p => if p = "1-3:1.1" then some 7 else none) (fun _ _ => rfl)).1, by decide⟩

/-- C2. When `find_mouse_device` returns a handle, the last call of
`hid_open_path` it made was on the path of an enumerated entry whose product id
is 0x103f or 0x1040 and whose interface number is 1, and returned that handle;
it is the only handle any of its open calls returned; and every open call it
made was on the path of such an entry. -/
theorem find_mouse_device_handle_from_candidate (api : Hidapi) (t : List Event)
    (h : hid_device) (hr : (find_mouse_device api t).1 = some h) :
    (∃ d ∈ api.hid_enumerate t MADR_VID 0,
      (d.product_id = 0x103f ∨ d.product_id = 0x1040) ∧ d.interface_number = 1 ∧
      (opens ((find_mouse_device api t).2.drop t.length)).getLast? = some (d.path, some h)) ∧
    opened ((find_mouse_device api t).2.drop t.length) = [h] ∧
    (∀ p r, Event.hid_open_path p r ∈ (find_mouse_device api t).2.drop t.length →
      ∃ d ∈ api.hid_enumerate t MADR_VID 0,
        ((d.product_id = 0x103f ∨ d.product_id = 0x1040) ∧ d.interface_number = 1) ∧
        d.path = p) := by
  obtain ⟨body, h1, h2, h3⟩ := find_spec api t
  have hd : (find_mouse_device api t).2.drop t.length =
      Event.hid_enumerate MADR_VID 0 :: body ++ [Event.hid_free_enumeration] := by
    rw [h1]
    exact drop_emitted t _
  rw [hd]
  refine ⟨?_, ?_, ?_⟩
  · rw [opens_around]
    rcases h3 with ⟨pre, d, post, h', hdevs, hc, hr', ho⟩ | ⟨hr', -⟩
    · rw [hr] at hr'
      cases hr'
      refine ⟨d, by rw [hdevs]; simp, hc.1, hc.2, ?_⟩
      rw [ho]
      simp
    · rw [hr] at hr'
      cases hr'
  · have := ScanOutcome.opened _ _ _ h3
    rw [hr] at this
    simpa [opened, List.filterMap_append] using this
  · intro p r hp
    have hb : Event.hid_open_path p r ∈ body := by simpa using hp
    exact ScanEvent.of_open _ p r (h2 _ hb)

/-- C3. When no enumerated entry passes both filters (in particular when the
enumeration is empty), `find_mouse_device` returns null and makes no call of
`hid_open_path`; and in every case each call of `hid_open_path` it makes is on
the path of an enumerated entry that passes both filters. -/
theorem find_mouse_device_opens_only_candidates (api : Hidapi) (t : List Event) :
    ((∀ d ∈ api.hid_enumerate t MADR_VID 0, ¬ Candidate d) →
      (find_mouse_device api t).1 = none ∧
      opens ((find_mouse_device api t).2.drop t.length) = []) ∧
    (∀ p r, Event.hid_open_path p r ∈ (find_mouse_device api t).2.drop t.length →
      ∃ d ∈ api.hid_enumerate t MADR_VID 0, Candidate d ∧ d.path = p) := by
  obtain ⟨body, h1, h2, h3⟩ := find_spec api t
  have hd : (find_mouse_device api t).2.drop t.length =
      Event.hid_enumerate MADR_VID 0 :: body ++ [Event.hid_free_enumeration] := by
    rw [h1]
    exact drop_emitted t _
  rw [hd, opens_around]
  constructor
  · intro hno
    rcases h3 with ⟨pre, d, post, h', hdevs, hc, -, -⟩ | ⟨hr', ho⟩
    · exact absurd hc (hno d (by rw [hdevs]; simp))
    · refine ⟨hr', ?_⟩
      rw [ho, List.map_eq_nil_iff, List.filter_eq_nil_iff]
      intro d hd'
      simpa using hno d hd'
  · intro p r hp
    have hb : Event.hid_open_path p r ∈ body := by simpa using hp
    exact ScanEvent.of_open _ p r (h2 _ hb)

/-- Witness of C2: on the sample bus the wired mouse cannot be opened and the
handle returned is the one the wireless receiver on interface 1 opened as. -/
theorem find_mouse_device_handle_from_candidate_witness :
    (find_mouse_device api_attached []).1 = some 7 ∧
    opened ((find_mouse_device api_attached []).2.drop 0) = [7] :=
  ⟨by decide, (find_mouse_device_handle_from_candidate api_attached [] 7 (by decide)).2.1⟩

/-- Witness of C3: a foreign product on interface 1 and the mouse on interface
0 only; nothing is opened although every open would succeed. -/
theorem find_mouse_device_opens_only_candidates_witness :
    (∀ d ∈ sample_bus.take 2, ¬ Candidate d) ∧
    (find_mouse_device api_no_candidate []).1 = none ∧
    opens ((find_mouse_device api_no_candidate []).2.drop 0) = [] :=
  ⟨by decide, (find_mouse_device_opens_only_candidates api_no_candidate []).1 (by decide)⟩

/-! ## main, path by path -/

theorem dpi_stage_eq (enc : DPIStage) (api : Hidapi) (device : hid_device)
    (opt : SetCommand.SetOptions) (t : List Event) :
    SetCommand.dpi_stage enc api device opt t =
      t ++ (Event.hid_send_feature_report device (enc.get_magic_packet opt.dpi_stage)
          (enc.get_magic_packet opt.dpi_stage).length
          (api.hid_send_feature_report t device (enc.get_magic_packet opt.dpi_stage)
            (enc.get_magic_packet opt.dpi_stage).length) ::
        (if api.hid_send_feature_report t device (enc.get_magic_packet opt.dpi_stage)
            (enc.get_magic_packet opt.dpi_stage).length = -1
         then [Event.print "Failed to send command."] else [])) := by
  unfold SetCommand.dpi_stage
  by_cases h : api.hid_send_feature_report t device (enc.get_magic_packet opt.dpi_stage)
      (enc.get_magic_packet opt.dpi_stage).length = -1
  · simp [h]
  · simp [h]

theorem dpi_stage_emitted (enc : DPIStage) (api : Hidapi) (device : hid_device)
    (opt : SetCommand.SetOptions) (t : List Event) :
    (SetCommand.dpi_stage enc api device opt t).drop t.length =
      Event.hid_send_feature_report device (enc.get_magic_packet opt.dpi_stage)
          (enc.get_magic_packet opt.dpi_stage).length
          (api.hid_send_feature_report t device (enc.get_magic_packet opt.dpi_stage)
            (enc.get_magic_packet opt.dpi_stage).length) ::
        (if api.hid_send_feature_report t device (enc.get_magic_packet opt.dpi_stage)
            (enc.get_magic_packet opt.dpi_stage).length = -1
         then [Event.print "Failed to send command."] else []) := by
  rw [dpi_stage_eq]
  exact drop_emitted t _

theorem main_init_fails (enc : DPIStage) (api : Hidapi) (cli : ParseOutcome)
    (h : api.hid_init [] = -1) :
    main enc api cli = (-1, [Event.hid_init (-1), Event.hid_error,
      Event.print_pointer "Failed to initialize HIDAPI: "
        (api.hid_error [Event.hid_init (-1)])]) := by
  simp [main, h]

theorem main_not_found (enc : DPIStage) (api : Hidapi) (cli : ParseOutcome)
    (h : api.hid_init [] ≠ -1)
    (hf : (find_mouse_device api [Event.hid_init (api.hid_init [])]).1 = none) :
    main enc api cli = (-1, (find_mouse_device api [Event.hid_init (api.hid_init [])]).2 ++
      [Event.print "No compatible device found on Interface 1.", Event.hid_exit]) := by
  rcases hfind : find_mouse_device api [Event.hid_init (api.hid_init [])] with ⟨r, t2⟩
  rw [hfind] at hf
  simp only at hf
  subst hf
  simp [main, h, hfind]

theorem main_parse_error (enc : DPIStage) (api : Hidapi) (code : Int) (device : hid_device)
    (h : api.hid_init [] ≠ -1)
    (hf : (find_mouse_device api [Event.hid_init (api.hid_init [])]).1 = some device) :
    main enc api (ParseOutcome.parse_error code) =
      (code, (find_mouse_device api [Event.hid_init (api.hid_init [])]).2 ++
        [Event.app_exit code]) := by
  rcases hfind : find_mouse_device api [Event.hid_init (api.hid_init [])] with ⟨r, t2⟩
  rw [hfind] at hf
  simp only at hf
  subst hf
  simp [main, h, hfind, CLI11_PARSE]

theorem main_set (enc : DPIStage) (api : Hidapi) (opt : SetCommand.SetOptions)
    (device : hid_device) (h : api.hid_init [] ≠ -1)
    (hf : (find_mouse_device api [Event.hid_init (api.hid_init [])]).1 = some device) :
    main enc api (ParseOutcome.set opt) =
      (0, SetCommand.dpi_stage enc api device opt
          (find_mouse_device api [Event.hid_init (api.hid_init [])]).2 ++
        [Event.hid_close device, Event.hid_exit]) := by
  rcases hfind : find_mouse_device api [Event.hid_init (api.hid_init [])] with ⟨r, t2⟩
  rw [hfind] at hf
  simp only at hf
  subst hf
  simp [main, h, hfind, CLI11_PARSE, SetCommand.setup, SetCommand.setup_set_subcommand]

/-! ## What discovery leaves untouched -/

theorem scan_filterMap_nil {β : Type} (f : Event → Option β) (devs : List hid_device_info)
    (hread : ∀ d fld, f (Event.read d fld) = none)
    (hopen : ∀ p r, f (Event.hid_open_path p r) = none) :
    ∀ body : List Event, (∀ e ∈ body, ScanEvent devs e) → body.filterMap f = [] := by
  intro body
  induction body with
  | nil => intro _; rfl
  | cons e body ih =>
    intro hb
    have he : f e = none := by
      rcases hb e (List.mem_cons_self e body) with ⟨x, fld, -, rfl⟩ | ⟨x, r, -, -, rfl⟩
      · exact hread x fld
      · exact hopen x.path r
    rw [List.filterMap_cons_none he]
    exact ih (fun e' he' => hb e' (List.mem_cons_of_mem e he'))

theorem find_sends (api : Hidapi) (t : List Event) :
    sends (find_mouse_device api t).2 = sends t := by
  obtain ⟨body, h1, h2, -⟩ := find_spec api t
  have hb := scan_filterMap_nil (fun e =>
    match e with
    | Event.hid_send_feature_report dev data len ret => some (dev, data, len, ret)
    | _ => none) _ (fun _ _ => rfl) (fun _ _ => rfl) body h2
  rw [h1]
  simp only [sends] at hb ⊢
  simp [List.filterMap_append, hb]

theorem find_closed (api : Hidapi) (t : List Event) :
    closed (find_mouse_device api t).2 = closed t := by
  obtain ⟨body, h1, h2, -⟩ := find_spec api t
  have hb := scan_filterMap_nil (fun e =>
    match e with
    | Event.hid_close h => some h
    | _ => none) _ (fun _ _ => rfl) (fun _ _ => rfl) body h2
  rw [h1]
  simp only [closed] at hb ⊢
  simp [List.filterMap_append, hb]

theorem find_opened (api : Hidapi) (t : List Event) :
    opened (find_mouse_device api t).2 = opened t ++ (find_mouse_device api t).1.toList := by
  obtain ⟨body, h1, -, h3⟩ := find_spec api t
  have hb := ScanOutcome.opened _ _ _ h3
  rw [h1]
  simp only [opened] at hb ⊢
  simp [List.filterMap_append, hb]

theorem find_hid_exit (api : Hidapi) (t : List Event) :
    (find_mouse_device api t).2.count Event.hid_exit = t.count Event.hid_exit := by
  obtain ⟨body, h1, h2, -⟩ := find_spec api t
  have hb : body.count Event.hid_exit = 0 := by
    apply List.count_eq_zero.2
    intro hm
    rcases h2 _ hm with ⟨x, f, -, he⟩ | ⟨x, r, -, -, he⟩ <;> simp at he
  rw [h1]
  simp [List.count_cons, List.count_append, hb]

theorem mem_sends (t : List Event) (dev : hid_device) (data : List Nat) (len : Nat) (ret : Int) :
    Event.hid_send_feature_report dev data len ret ∈ t ↔ (dev, data, len, ret) ∈ sends t := by
  induction t with
  | nil => simp [sends]
  | cons e t ih =>
    simp only [sends] at ih
    cases e <;> simp [sends, ih]

/-! ## main: the claims -/

/-- C4. `main` returns -1 when `hid_init` fails; it returns -1 and prints
`No compatible device found on Interface 1.` when `find_mouse_device` returns
null; and on a run that goes through to the end with a device found (CLI11
parsed the `set` subcommand and ran it) it returns 0 whatever
`hid_send_feature_report` returned. -/
theorem main_exit_code (enc : DPIStage) (api : Hidapi) :
    (api.hid_init [] = -1 → ∀ cli, (main enc api cli).1 = -1) ∧
    (api.hid_init [] ≠ -1 →
      (find_mouse_device api [Event.hid_init (api.hid_init [])]).1 = none →
      ∀ cli, (main enc api cli).1 = -1 ∧
        Event.print "No compatible device found on Interface 1." ∈ (main enc api cli).2) ∧
    (api.hid_init [] ≠ -1 →
      ∀ device, (find_mouse_device api [Event.hid_init (api.hid_init [])]).1 = some device →
      ∀ opt, (main enc api (ParseOutcome.set opt)).1 = 0) := by
  refine ⟨?_, ?_, ?_⟩
  · intro h cli
    rw [main_init_fails enc api cli h]
  · intro h hf cli
    rw [main_not_found enc api cli h hf]
    simp
  · intro h device hf opt
    rw [main_set enc api opt device h hf]

/-- Witness of C4: a failing `hid_init`; a bus without a compatible device;
a device found with the send failing and with the send succeeding. -/
theorem main_exit_code_witness :
    (main sample_table api_init_fails (ParseOutcome.set ⟨3, by decide⟩)).1 = -1 ∧
    ((main sample_table api_no_candidate (ParseOutcome.set ⟨3, by decide⟩)).1 = -1 ∧
      Event.print "No compatible device found on Interface 1." ∈
        (main sample_table api_no_candidate (ParseOutcome.set ⟨3, by decide⟩)).2) ∧
    (main sample_table api_send_fails (ParseOutcome.set ⟨3, by decide⟩)).1 = 0 ∧
    (main sample_table api_attached (ParseOutcome.set ⟨3, by decide⟩)).1 = 0 :=
  ⟨(main_exit_code sample_table api_init_fails).1 (by decide) _,
   (main_exit_code sample_table api_no_candidate).2.1 (by decide) (by decide) _,
   (main_exit_code sample_table api_send_fails).2.2 (by decide) 7 (by decide) _,
   (main_exit_code sample_table api_attached).2.2 (by decide) 7 (by decide) _⟩

/-- C5, as stated, fails: when `hid_init` fails, `main` returns without calling
`hid_exit`, so the number of `hid_exit` calls of that run is not one. -/
theorem main_init_failure_no_hid_exit :
    ¬ ((main sample_table api_init_fails (ParseOutcome.set ⟨3, by decide⟩)).2.count
        Event.hid_exit = 1) := by
  decide

/-- C5, amended.  When `hid_init` fails, no handle is opened, none is closed
and `hid_exit` is not called, whatever the command line.  When discovery
returns null, no handle was opened, none is closed and `hid_exit` is called
exactly once, whatever the command line.  When discovery returns a handle and
the `set` subcommand runs (the send succeeding or failing), that handle is the
only one opened, it is passed to `hid_close` exactly once, nothing else is
closed, and `hid_exit` is called exactly once. -/
theorem main_cleanup (enc : DPIStage) (api : Hidapi) :
    (api.hid_init [] = -1 → ∀ cli,
      opened (main enc api cli).2 = [] ∧ closed (main enc api cli).2 = [] ∧
      (main enc api cli).2.count Event.hid_exit = 0) ∧
    (api.hid_init [] ≠ -1 →
      (find_mouse_device api [Event.hid_init (api.hid_init [])]).1 = none → ∀ cli,
      opened (main enc api cli).2 = [] ∧ closed (main enc api cli).2 = [] ∧
      (main enc api cli).2.count Event.hid_exit = 1) ∧
    (api.hid_init [] ≠ -1 →
      ∀ device, (find_mouse_device api [Event.hid_init (api.hid_init [])]).1 = some device →
      ∀ opt,
      opened (main enc api (ParseOutcome.set opt)).2 = [device] ∧
      closed (main enc api (ParseOutcome.set opt)).2 = [device] ∧
      (main enc api (ParseOutcome.set opt)).2.count (Event.hid_close device) = 1 ∧
      (main enc api (ParseOutcome.set opt)).2.count Event.hid_exit = 1) := by
  have ho := find_opened api [Event.hid_init (api.hid_init [])]
  have hc := find_closed api [Event.hid_init (api.hid_init [])]
  have he := find_hid_exit api [Event.hid_init (api.hid_init [])]
  refine ⟨?_, ?_, ?_⟩
  · intro h cli
    rw [main_init_fails enc api cli h]
    simp [closed, opened]
  · intro h hf cli
    rw [main_not_found enc api cli h hf]
    rw [hf] at ho
    simp only [closed, opened] at ho hc ⊢
    simp [List.filterMap_append, List.count_append, List.count_cons, ho, hc, he]
  · intro h device hf opt
    rw [main_set enc api opt device h hf, dpi_stage_eq]
    rw [hf] at ho
    have hcl : (find_mouse_device api [Event.hid_init (api.hid_init [])]).2.count
        (Event.hid_close device) = 0 := by
      apply List.count_eq_zero.2
      intro hm
      have : device ∈ closed (find_mouse_device api [Event.hid_init (api.hid_init [])]).2 := by
        simp only [closed]
        exact List.mem_filterMap.2 ⟨_, hm, rfl⟩
      rw [hc] at this
      simp [closed] at this
    simp only [closed, opened] at ho hc ⊢
    split <;>
      simp [List.filterMap_append, List.count_append, List.count_cons, ho, hc, he, hcl]

/-- Witness of C5, amended: a failing `hid_init`; a bus without a compatible
device; a device found with the send failing and with the send succeeding. -/
theorem main_cleanup_witness :
    (opened (main sample_table api_init_fails (ParseOutcome.parse_error 106)).2 = [] ∧
      closed (main sample_table api_init_fails (ParseOutcome.parse_error 106)).2 = [] ∧
      (main sample_table api_init_fails (ParseOutcome.parse_error 106)).2.count
        Event.hid_exit = 0) ∧
    (opened (main sample_table api_no_candidate (ParseOutcome.parse_error 106)).2 = [] ∧
      closed (main sample_table api_no_candidate (ParseOutcome.parse_error 106)).2 = [] ∧
      (main sample_table api_no_candidate (ParseOutcome.parse_error 106)).2.count
        Event.hid_exit = 1) ∧
    (opened (main sample_table api_send_fails (ParseOutcome.set ⟨3, by decide⟩)).2 = [7] ∧
      closed (main sample_table api_send_fails (ParseOutcome.set ⟨3, by decide⟩)).2 = [7] ∧
      (main sample_table api_send_fails (ParseOutcome.set ⟨3, by decide⟩)).2.count
        (Event.hid_close 7) = 1 ∧
      (main sample_table api_send_fails (ParseOutcome.set ⟨3, by decide⟩)).2.count
        Event.hid_exit = 1) ∧
    (opened (main sample_table api_attached (ParseOutcome.set ⟨3, by decide⟩)).2 = [7] ∧
      closed (main sample_table api_attached (ParseOutcome.set ⟨3, by decide⟩)).2 = [7] ∧
      (main sample_table api_attached (ParseOutcome.set ⟨3, by decide⟩)).2.count
        (Event.hid_close 7) = 1 ∧
      (main sample_table api_attached (ParseOutcome.set ⟨3, by decide⟩)).2.count
        Event.hid_exit = 1) :=
  ⟨(main_cleanup sample_table api_init_fails).1 (by decide) _,
   (main_cleanup sample_table api_no_candidate).2.1 (by decide) (by decide) _,
   (main_cleanup sample_table api_send_fails).2.2 (by decide) 7 (by decide) _,
   (main_cleanup sample_table api_attached).2.2 (by decide) 7 (by decide) _⟩

/-- C7. Every call of `hid_send_feature_report` in a run of `main` is made
after `hid_init` succeeded and `find_mouse_device` returned a non-null handle,
on exactly that handle, and lies in the part of the trace that follows the
return of `find_mouse_device`; when `hid_init` fails or discovery returns
null, the run has no such call and is the same whatever the command line is
(the arguments are never looked at). -/
theorem main_sends_only_to_found_device (enc : DPIStage) (api : Hidapi) (cli : ParseOutcome) :
    (∀ dev data len ret,
      Event.hid_send_feature_report dev data len ret ∈ (main enc api cli).2 →
      api.hid_init [] ≠ -1 ∧
      (find_mouse_device api [Event.hid_init (api.hid_init [])]).1 = some dev ∧
      Event.hid_send_feature_report dev data len ret ∉
        (find_mouse_device api [Event.hid_init (api.hid_init [])]).2 ∧
      ∃ rest, (main enc api cli).2 =
          (find_mouse_device api [Event.hid_init (api.hid_init [])]).2 ++ rest ∧
        Event.hid_send_feature_report dev data len ret ∈ rest) ∧
    ((api.hid_init [] = -1 ∨
        (find_mouse_device api [Event.hid_init (api.hid_init [])]).1 = none) →
      sends (main enc api cli).2 = [] ∧ ∀ cli', main enc api cli' = main enc api cli) := by
  have hquiet : ∀ dev data len ret, Event.hid_send_feature_report dev data len ret ∉
      (find_mouse_device api [Event.hid_init (api.hid_init [])]).2 := by
    intro dev data len ret hm
    rw [mem_sends, find_sends] at hm
    simp [sends] at hm
  constructor
  · intro dev data len ret hm
    by_cases h : api.hid_init [] = -1
    · rw [main_init_fails enc api cli h] at hm
      simp at hm
    · cases hf : (find_mouse_device api [Event.hid_init (api.hid_init [])]).1 with
      | none =>
        rw [main_not_found enc api cli h hf] at hm
        simp only [List.mem_append, List.mem_cons, List.mem_singleton, List.not_mem_nil,
          or_false] at hm
        rcases hm with hm | hm | hm
        · exact absurd hm (hquiet dev data len ret)
        · cases hm
        · cases hm
      | some device =>
        cases cli with
        | parse_error code =>
          rw [main_parse_error enc api code device h hf] at hm
          simp only [List.mem_append, List.mem_singleton] at hm
          rcases hm with hm | hm
          · exact absurd hm (hquiet dev data len ret)
          · cases hm
        | set opt =>
          rw [main_set enc api opt device h hf, dpi_stage_eq, List.append_assoc] at hm ⊢
          rcases List.mem_append.1 hm with hm' | hm'
          · exact absurd hm' (hquiet dev data len ret)
          · refine ⟨h, ?_, hquiet dev data len ret, _, rfl, hm'⟩
            have hdev : dev = device := by
              split at hm' <;> simp at hm' <;> exact hm'.1
            rw [hdev]
  · intro hfail
    rcases hfail with h | hf
    · refine ⟨?_, fun cli' => ?_⟩
      · rw [main_init_fails enc api cli h]
        simp [sends]
      · rw [main_init_fails enc api cli h, main_init_fails enc api cli' h]
    · by_cases h : api.hid_init [] = -1
      · refine ⟨?_, fun cli' => ?_⟩
        · rw [main_init_fails enc api cli h]
          simp [sends]
        · rw [main_init_fails enc api cli h, main_init_fails enc api cli' h]
      · refine ⟨?_, fun cli' => ?_⟩
        · rw [main_not_found enc api cli h hf]
          have hs := find_sends api [Event.hid_init (api.hid_init [])]
          simp only [sends] at hs ⊢
          simp [List.filterMap_append, hs]
        · rw [main_not_found enc api cli h hf, main_not_found enc api cli' h hf]

/-- Witness of C7: with the device attached the one send goes to handle 7,
the handle discovery returned; with a failing `hid_init` nothing is sent. -/
theorem main_sends_only_to_found_device_witness :
    (find_mouse_device api_attached [Event.hid_init (api_attached.hid_init [])]).1 = some 7 ∧
    sends (main sample_table api_init_fails (ParseOutcome.set ⟨3, by decide⟩)).2 = [] :=
  ⟨((main_sends_only_to_found_device sample_table api_attached
      (ParseOutcome.set ⟨3, by decide⟩)).1 7 [8, 3, 0] 3 3 (by decide)).2.1,
   ((main_sends_only_to_found_device sample_table api_init_fails
      (ParseOutcome.set ⟨3, by decide⟩)).2 (Or.inl (by decide))).1⟩

/-- C9, the run that breaks it: the device is attached and opens as handle 7,
and the command line has no subcommand, which CLI11 reports as a
`RequiredError` (exit code 106).  `CLI11_PARSE` returns from `main` at once:
the exit code is 106, handle 7 was opened, and the run calls neither
`hid_close` nor `hid_exit`. -/
theorem main_parse_error_skips_cleanup :
    (main sample_table api_attached (ParseOutcome.parse_error 106)).1 = 106 ∧
    opened (main sample_table api_attached (ParseOutcome.parse_error 106)).2 = [7] ∧
    closed (main sample_table api_attached (ParseOutcome.parse_error 106)).2 = [] ∧
    (main sample_table api_attached (ParseOutcome.parse_error 106)).2.count Event.hid_exit = 0 := by
  decide

/-- C10. For any two stage values in 0..255, the one call of
`hid_send_feature_report` that `SetCommand::dpi_stage` makes carries a buffer
of the same size and the same length argument: both are the fixed frame size
`N` of the encoder. -/
theorem dpi_stage_packet_length_constant (enc : DPIStage) (api : Hidapi) (device : hid_device)
    (t : List Event) (s1 s2 : Fin 256) :
    (sends ((SetCommand.dpi_stage enc api device ⟨s1⟩ t).drop t.length)).map
        (fun c => (c.2.1.length, c.2.2.1)) = [(enc.N, enc.N)] ∧
    (sends ((SetCommand.dpi_stage enc api device ⟨s1⟩ t).drop t.length)).map
        (fun c => (c.2.1.length, c.2.2.1)) =
      (sends ((SetCommand.dpi_stage enc api device ⟨s2⟩ t).drop t.length)).map
        (fun c => (c.2.1.length, c.2.2.1)) ∧
    (enc.get_magic_packet s1).length = (enc.get_magic_packet s2).length := by
  have key : ∀ s : Fin 256,
      (sends ((SetCommand.dpi_stage enc api device ⟨s⟩ t).drop t.length)).map
        (fun c => (c.2.1.length, c.2.2.1)) = [(enc.N, enc.N)] := by
    intro s
    rw [dpi_stage_emitted]
    split <;> simp [sends, enc.size_eq]
  exact ⟨key s1, (key s1).trans (key s2).symm, (enc.size_eq s1).trans (enc.size_eq s2).symm⟩

end Madr
